import Mathlib

/-
Verification development for the AECyberTV WhatsApp bot (src/app.py).

The webhook handler is embedded as an executable Lean function over an
explicit keyed store (`Db`).  Every branch of the Python if/elif chain in
`webhook` (app.py lines 288-414) is translated in order; besides mutating
the store, the embedding records an explicit trace of side effects
(recorder calls, notifier calls, state writes, outbound replies) so that
ordering and frame properties can be stated.
-/

namespace AECyberTV

-- ===================== string utilities =====================

/-- Python `str.strip()` whitespace class (the ASCII part, which is all that
occurs in this bot's inputs of interest). -/
def isPyWs (c : Char) : Bool :=
  c == ' ' || c == '\t' || c == '\n' || c == '\r' || c == '\x0b' || c == '\x0c'

/-- Python `str.strip()`: drop leading and trailing whitespace. -/
def pyStrip (s : String) : String :=
  ⟨((s.data.dropWhile isPyWs).reverse.dropWhile isPyWs).reverse⟩

/-- Python `str.lower()`.  The keyword sets compared against are ASCII or
Arabic script; Arabic has no case, so ASCII lowercasing models `.lower()`
on all relevant inputs. -/
def pyLower (s : String) : String :=
  ⟨s.data.map Char.toLower⟩

/-- Character of the Arabic Unicode block, app.py line 83:
`AR_REGEX = re.compile(r"[؀-ۿ]")`. -/
def isArabicChar (c : Char) : Bool :=
  0x0600 ≤ c.toNat && c.toNat ≤ 0x06FF

/-- app.py lines 85-86: `is_arabic` — the text contains at least one
character of the Arabic block. -/
def is_arabic (s : String) : Bool :=
  s.data.any isArabicChar

/-- `needle` is a leading segment of `haystack` (character lists). -/
def startsWithL : List Char → List Char → Bool
  | [], _ => true
  | _ :: _, [] => false
  | a :: as, b :: bs => a == b && startsWithL as bs

/-- Python substring containment `needle in haystack` on character lists. -/
def containsSubL : List Char → List Char → Bool
  | n, [] => n.isEmpty
  | n, l@(_ :: rest) => startsWithL n l || containsSubL n rest

/-- Python substring containment `needle in haystack`. -/
def containsSub (needle haystack : String) : Bool :=
  containsSubL needle.data haystack.data

/-- Python `s.startswith(pre)`. -/
def pyStartsWith (s pre : String) : Bool :=
  startsWithL pre.data s.data

-- ===================== contact patterns (app.py line 334) =====================

/-- Helper for the email regex `@.+\.`: scanning after the first consumed
character, is a `'.'` reachable through non-newline characters?  (`.` in a
Python regex does not match a newline.) -/
def dotReach : List Char → Bool
  | [] => false
  | c :: rest => if c == '.' then true else if c == '\n' then false else dotReach rest

/-- `re.search(r"@.+\.", s)`: some `'@'` is followed by at least one
non-newline character and then a `'.'`, with no newline in between. -/
def emailLikeL : List Char → Bool
  | [] => false
  | c :: rest =>
    (c == '@' &&
      (match rest with
       | [] => false
       | d :: rest2 => d != '\n' && dotReach rest2)) || emailLikeL rest

/-- `re.search(r"@.+\.", body_raw)` on a string. -/
def emailLike (s : String) : Bool := emailLikeL s.data

/-- Python `\d` decimal digit: ASCII digits plus the Arabic-Indic and
Extended Arabic-Indic digit ranges (the Unicode digits this bilingual bot
can receive). -/
def isDigitPy (c : Char) : Bool :=
  c.isDigit || (0x0660 ≤ c.toNat && c.toNat ≤ 0x0669)
    || (0x06F0 ≤ c.toNat && c.toNat ≤ 0x06F9)

/-- At least `n` digits at the head of the list. -/
def digitRunFrom : Nat → List Char → Bool
  | 0, _ => true
  | _ + 1, [] => false
  | n + 1, c :: rest => isDigitPy c && digitRunFrom n rest

/-- `re.search(r"\+?\d{7,}", s)`: a run of at least 7 consecutive digits
occurs somewhere (the optional leading `+` does not constrain existence). -/
def phoneLikeL : List Char → Bool
  | [] => false
  | c :: rest => digitRunFrom 7 (c :: rest) || phoneLikeL rest

/-- `re.search(r"\+?\d{7,}", body_raw)` on a string. -/
def phoneLike (s : String) : Bool := phoneLikeL s.data

-- ===================== buy-token normalisation (app.py line 385) =====================

/-- Python `body.replace("buy ", "")`: remove every non-overlapping
occurrence of `"buy "`, scanning left to right. -/
def removeBuyL : List Char → List Char
  | 'b' :: 'u' :: 'y' :: ' ' :: rest => removeBuyL rest
  | c :: rest => c :: removeBuyL rest
  | [] => []

/-- `body.replace("buy ", "")` on a string. -/
def removeBuyStr (s : String) : String := ⟨removeBuyL s.data⟩

/-- Modelled from the spec: §4.5 rule 8 says to "strip the leading literal
`buy ` prefix" — drop exactly the first four characters (the branch only
fires when the text starts with `"buy "`).  This is the spec's wording,
kept separate so it can be compared with the source's `removeBuyStr`. -/
def leadingBuyStripped (body : String) : String :=
  pyStrip (body.drop 4)

-- ===================== keyword sets (app.py lines 308, 314, 328, 349) =====================

/-- Menu keywords, app.py line 308. -/
def MENU_KEYWORDS : List String :=
  ["start", "hi", "hello", "مرحبا", "السلام عليكم", "ابدأ", "menu", "القائمة"]

/-- Support-entry keywords, app.py line 314. -/
def SUPPORT_KEYWORDS : List String :=
  ["3", "٣", "support", "دعم", "الدعم", "الدعم الفني"]

/-- Trial-entry keywords, app.py line 328. -/
def TRIAL_KEYWORDS : List String :=
  ["2", "٢", "trial", "free", "free trial", "تجربة", "تجربة مجانية"]

/-- Offers keywords, app.py line 349. -/
def OFFERS_KEYWORDS : List String :=
  ["1", "١", "offers", "العروض"]

def isMenuKeyword (b : String) : Bool := MENU_KEYWORDS.contains b

def isSupportKeyword (b : String) : Bool := SUPPORT_KEYWORDS.contains b

def isTrialKeyword (b : String) : Bool := TRIAL_KEYWORDS.contains b

def isOffersKeyword (b : String) : Bool := OFFERS_KEYWORDS.contains b

-- ===================== catalog (app.py lines 162-174) =====================

/-- app.py lines 162-167: `PLAN_KEYWORDS`, in dict insertion order.  The
alias collections are Python sets used only through membership and `any`,
so a list is an order-irrelevant faithful model. -/
def PLAN_KEYWORDS : List (String × List String) :=
  [("premium", ["premium", "بريميوم", "برميوم", "بر يميم"]),
   ("executive", ["executive", "اكزكيوتيف", "إكزكيوتيف", "تنفيذي"]),
   ("casual", ["casual", "كاجوال", "عادي"]),
   ("kids", ["kids", "كيدز", "أطفال", "اطفال"])]

/-- Alias set of one plan id (empty off the catalog). -/
def aliasesOf (p : String) : List String :=
  (((PLAN_KEYWORDS.find? (fun q => q.1 == p)).map (fun q => q.2))).getD []

/-- app.py lines 169-174: `PLAN_PAY_URL` with the default payment links
(the environment-variable defaults of lines 23-26). -/
def PLAN_PAY_URL : List (String × String) :=
  [("premium", "https://example.com/pay/premium"),
   ("executive", "https://example.com/pay/executive"),
   ("casual", "https://example.com/pay/casual"),
   ("kids", "https://example.com/pay/kids")]

/-- `PLAN_PAY_URL.get(p)` rendered into the reply f-string (`"None"` if the
key were absent, which never happens for a resolved plan). -/
def payUrlOf (p : String) : String :=
  (((PLAN_PAY_URL.find? (fun q => q.1 == p)).map (fun q => q.2))).getD "None"

/-- Membership test `plan in PLAN_PAY_URL` (dict key membership), app.py
line 392. -/
def inPayTable (p : String) : Bool :=
  (PLAN_PAY_URL.find? (fun q => q.1 == p)).isSome

/-- One plan's test in the package-choice loop, app.py line 363:
`body in meta["aliases"] or any(alias in body for alias in meta["aliases"])`. -/
def aliasHit (body p : String) : Bool :=
  (aliasesOf p).contains body || (aliasesOf p).any (fun a => containsSub a body)

/-- The package-choice loop of app.py lines 361-365: the plans are tried in
dict insertion order (premium, executive, casual, kids) and the first hit
wins (`break`). -/
def chosenPlan (body : String) : Option String :=
  if aliasHit body "premium" then some "premium"
  else if aliasHit body "executive" then some "executive"
  else if aliasHit body "casual" then some "casual"
  else if aliasHit body "kids" then some "kids"
  else none

/-- The exact-alias loop of app.py lines 388-391: `if plan in meta["aliases"]`,
plans in dict insertion order, first hit wins. -/
def buyExactAlias (tok : String) : Option String :=
  if (aliasesOf "premium").contains tok then some "premium"
  else if (aliasesOf "executive").contains tok then some "executive"
  else if (aliasesOf "casual").contains tok then some "casual"
  else if (aliasesOf "kids").contains tok then some "kids"
  else none

/-- app.py lines 387-393: exact alias match, else direct catalog-id match. -/
def buyNormalized (tok : String) : Option String :=
  match buyExactAlias tok with
  | some p => some p
  | none => if inPayTable tok then some tok else none

-- ===================== message texts (app.py lines 177-281) =====================

def DESC_EN : String → String
  | "premium" =>
      "🌟 Premium — 12 months\n• Best for: Live sports in UHD/4K + top movies/series\n• Stability: ★★★★★ (fastest servers)\n• Updates: Very frequent\n• Devices: Phones, tablets, Smart TV, TV boxes\n• Support: Priority\n"
  | "executive" =>
      "💼 Executive — 12 months\n• Best for: All major sports + entertainment\n• Stability: ★★★★☆ (very stable)\n• Updates: Frequent\n• Devices: Phones, tablets, Smart TV, TV boxes\n• Support: Fast response\n"
  | "casual" =>
      "👍 Casual — 12 months\n• Best for: Essentials & everyday channels\n• Stability: ★★★★☆ (stable)\n• Updates: Regular\n• Devices: Phones, tablets, Smart TV, TV boxes\n• Support: Standard\n"
  | "kids" =>
      "🧒 Kids — 12 months\n• Best for: Safe kids channels & cartoons\n• Stability: ★★★★☆ (stable)\n• Updates: Regular\n• Devices: Phones, tablets, Smart TV, TV boxes\n• Parental-friendly selection\n"
  | _ => ""

def DESC_AR : String → String
  | "premium" =>
      "🌟 Premium — ١٢ شهر\n• الأفضل: قنوات الرياضة المباشرة بدقة UHD/4K + أفلام ومسلسلات مميزة\n• الثبات: ★★★★★ (أسرع وأثبت الخوادم)\n• التحديثات: متكررة جداً\n• الأجهزة: جوال، تابلت، تلفزيون ذكي، أجهزة TV Box\n• الدعم: أولوية عالية\n"
  | "executive" =>
      "💼 Executive — ١٢ شهر\n• الأفضل: كل البطولات الرياضية + ترفيه شامل\n• الثبات: ★★★★☆ (ثبات ممتاز)\n• التحديثات: متكررة\n• الأجهزة: جوال، تابلت، تلفزيون ذكي، أجهزة TV Box\n• الدعم: سريع\n"
  | "casual" =>
      "👍 Casual — ١٢ شهر\n• الأنسب: القنوات الأساسية والاستخدام اليومي\n• الثبات: ★★★★☆ (ثابت)\n• التحديثات: منتظمة\n• الأجهزة: جوال، تابلت، تلفزيون ذكي، أجهزة TV Box\n• الدعم: عادي\n"
  | "kids" =>
      "🧒 Kids — ١٢ شهر\n• الأنسب: قنوات أطفال آمنة وكرتون\n• الثبات: ★★★★☆ (ثابت)\n• التحديثات: منتظمة\n• الأجهزة: جوال، تابلت، تلفزيون ذكي، أجهزة TV Box\n• محتوى مناسب للعائلة\n"
  | _ => ""

def WELCOME_EN : String :=
  "👋 Welcome to AECyberTV!\n\n1) Offers\n2) Free Trial (24h)\n3) Support\n\nReply with: 1 / 2 / 3"

def WELCOME_AR : String :=
  "👋 أهلاً بك في AECyberTV!\n\n١) العروض\n٢) تجربة مجانية (24 ساعة)\n٣) الدعم الفني\n\nأرسل: 1 / 2 / 3"

def TRIAL_EN : String :=
  "✅ Free Trial (24h): please send your *email or phone* to activate.\nExample: user@email.com or +9715xxxxxxx"

def TRIAL_AR : String :=
  "✅ تجربة مجانية (24 ساعة): الرجاء إرسال *بريدك الإلكتروني أو رقم هاتفك* للتفعيل.\nمثال: user@email.com أو +9715xxxxxxx"

def SUPPORT_PROMPT_EN : String :=
  "🛠 Support mode ON.\nPlease type your issue now (screenshots description, device, player, channel)."

def SUPPORT_PROMPT_AR : String :=
  "🛠 تم تفعيل وضع الدعم.\nالرجاء كتابة المشكلة الآن (وصف، جهازك، المشغل، القناة)."

def SUPPORT_THANKS_EN : String := "✅ Thanks. Our team will review and reply shortly."

def SUPPORT_THANKS_AR : String := "✅ شكراً لك. سيتم مراجعة طلبك والرد قريباً."

def CHOOSE_PLAN_EN : String :=
  "Please reply with a package name:\n- premium\n- executive\n- casual\n- kids"

def CHOOSE_PLAN_AR : String :=
  "الرجاء كتابة اسم الباقة:\n- premium\n- executive\n- casual\n- kids"

/-- The fixed pre-composed bilingual trial-confirmation block, app.py
lines 338-343. -/
def TRIAL_CONFIRM : String :=
  "✅ Received. Trial request is being processed.\n🕘 You’ll get activation details shortly.\n✅ تم الاستلام. يتم الآن معالجة طلب التجربة.\n🕘 ستصلك تفاصيل التفعيل قريباً."

def FALLBACK_EN : String :=
  "I didn’t get that. Reply 1 / 2 / 3, or type \x27start\x27."

def FALLBACK_AR : String :=
  "لم أفهم. أرسل 1 / 2 / 3 أو اكتب \x27start\x27."

/-- app.py line 302: `lang = "ar" if is_arabic(body_raw) else "en"`. -/
def langOf (body_raw : String) : String :=
  if is_arabic body_raw then "ar" else "en"

/-- app.py line 310: the welcome reply, detected language's banner first,
then a separator, then the other language's banner. -/
def welcomeFor (lang : String) : String :=
  (if lang = "ar" then WELCOME_AR else WELCOME_EN) ++ "\n—\n"
    ++ (if lang = "ar" then WELCOME_EN else WELCOME_AR)

/-- app.py lines 350-355: the four full descriptions in fixed catalog
order, then the choose-a-package prompt, joined with `"\n"`. -/
def offersMsg (lang : String) : String :=
  String.intercalate "\n"
    [(if lang = "ar" then DESC_AR else DESC_EN) "premium",
     (if lang = "ar" then DESC_AR else DESC_EN) "executive",
     (if lang = "ar" then DESC_AR else DESC_EN) "casual",
     (if lang = "ar" then DESC_AR else DESC_EN) "kids",
     if lang = "ar" then CHOOSE_PLAN_AR else CHOOSE_PLAN_EN]

/-- app.py lines 372-378 and 398-404: plan description, pay line, link,
post-payment instruction. -/
def payReply (lang chosen : String) : String :=
  (if lang = "ar" then DESC_AR else DESC_EN) chosen
    ++ (if lang = "ar" then "\nادفع هنا: " else "\nPay here: ")
    ++ payUrlOf chosen ++ "\n"
    ++ (if lang = "ar" then "بعد الدفع، أرسل لقطة الشاشة للتفعيل."
        else "After payment, send a screenshot for activation.")

/-- app.py line 322 admin alert text. -/
def supportNotifyMsg (f b : String) : String :=
  "[AECyberTV WhatsApp] SUPPORT\nFrom: " ++ f ++ "\nMsg: " ++ b

/-- app.py line 336 admin alert text. -/
def trialNotifyMsg (f b : String) : String :=
  "[AECyberTV WhatsApp] TRIAL LEAD\nFrom: " ++ f ++ "\nContact: " ++ b

/-- app.py lines 371 and 397 admin alert text. -/
def orderNotifyMsg (f p : String) : String :=
  "[AECyberTV WhatsApp] ORDER STARTED\nFrom: " ++ f ++ "\nPlan: " ++ p
    ++ "\nLink: " ++ payUrlOf p

-- ===================== data model (app.py lines 42-139) =====================

/-- One row of the `users` table (the columns the router reads/writes). -/
structure UserRec where
  lang : String
  state : Option String
  pending_plan : Option String
deriving DecidableEq, Repr

/-- One row of the `leads` table. -/
structure LeadRec where
  wa_number : String
  contact : String
  source : String
deriving DecidableEq, Repr

/-- One row of the `orders` table. -/
structure OrderRec where
  wa_number : String
  plan : String
  status : String
deriving DecidableEq, Repr

/-- The store: users keyed by `wa_number` (the column is UNIQUE), leads and
orders append-only. -/
structure Db where
  users : String → Option UserRec
  leads : List LeadRec
  orders : List OrderRec

/-- app.py lines 91-105: `upsert_user` — update `lang` on an existing row,
else insert a fresh row with NULL state and NULL pending_plan. -/
def upsert_user (db : Db) (wa lang : String) : Db :=
  match db.users wa with
  | some u =>
    { db with users := fun x => if x = wa then some { u with lang := lang } else db.users x }
  | none =>
    { db with users := fun x => if x = wa then some ⟨lang, none, none⟩ else db.users x }

/-- app.py lines 107-113: `set_user_state` — an UPDATE, a no-op if the row
is absent. -/
def set_user_state (db : Db) (wa : String) (state pending_plan : Option String) : Db :=
  { db with users := fun x =>
      if x = wa then (db.users x).map (fun u => { u with state := state, pending_plan := pending_plan })
      else db.users x }

/-- app.py lines 115-123: `get_user_state` — defaults `(None, None, "en")`
for unseen senders, and `row[2] or "en"` for the language column. -/
def get_user_state (db : Db) (wa : String) : Option String × Option String × String :=
  match db.users wa with
  | none => (none, none, "en")
  | some u => (u.state, u.pending_plan, if u.lang = "" then "en" else u.lang)

/-- app.py lines 125-131: `save_lead` — append-only insert. -/
def save_lead (db : Db) (wa contact source : String) : Db :=
  { db with leads := db.leads ++ [⟨wa, contact, source⟩] }

/-- app.py lines 133-139: `save_order` — append-only insert. -/
def save_order (db : Db) (wa plan status : String) : Db :=
  { db with orders := db.orders ++ [⟨wa, plan, status⟩] }

-- ===================== effect trace =====================

/-- The observable side effects of one webhook turn, in the order the
source performs them. -/
inductive Effect where
  | recordLead (wa contact source : String)
  | recordOrder (wa plan status : String)
  | notify (msg : String)
  | setState (wa : String) (state pending_plan : Option String)
  | reply (wa msg : String)
deriving DecidableEq, Repr

def isRecE : Effect → Bool
  | .recordLead _ _ _ => true
  | .recordOrder _ _ _ => true
  | _ => false

def isNotifyE : Effect → Bool
  | .notify _ => true
  | _ => false

def isSetStateE : Effect → Bool
  | .setState _ _ _ => true
  | _ => false

def isReplyE : Effect → Bool
  | .reply _ _ => true
  | _ => false

/-- Is a list of naturals weakly increasing? -/
def sortedNat : List Nat → Bool
  | [] => true
  | [_] => true
  | a :: b :: r => a ≤ b && sortedNat (b :: r)

/-- Rank of an effect under the SPEC's claimed per-turn order
(recorder → notifier → state write → reply). -/
def rankClaim : Effect → Nat
  | .recordLead _ _ _ => 0
  | .recordOrder _ _ _ => 0
  | .notify _ => 1
  | .setState _ _ _ => 2
  | .reply _ _ => 3

/-- Rank ignoring state writes (recorder → notifier → reply), the order the
code does establish on every branch. -/
def rankCore : Effect → Option Nat
  | .recordLead _ _ _ => some 0
  | .recordOrder _ _ _ => some 0
  | .notify _ => some 1
  | .reply _ _ => some 2
  | .setState _ _ _ => none

/-- The spec's §4.5 per-turn effect discipline (C2 as stated): at most one
recorder call, at most one notifier call, a single reply, and the effects
ordered recorder → notifier → state write → reply. -/
def SpecEffectOrder (tr : List Effect) : Prop :=
  (tr.filter isRecE).length ≤ 1 ∧ (tr.filter isNotifyE).length ≤ 1 ∧
  (tr.filter isReplyE).length = 1 ∧ sortedNat (tr.map rankClaim) = true

/-- The per-turn effect discipline the code actually guarantees: at most
one recorder call, at most one notifier call, at most one state write,
exactly one reply, with recorder → notifier → reply in that order (the
state write is not uniformly positioned). -/
def CodeEffectOrder (tr : List Effect) : Prop :=
  (tr.filter isRecE).length ≤ 1 ∧ (tr.filter isNotifyE).length ≤ 1 ∧
  (tr.filter isSetStateE).length ≤ 1 ∧ (tr.filter isReplyE).length = 1 ∧
  sortedNat (tr.filterMap rankCore) = true

-- ===================== the webhook handler (app.py lines 288-414) =====================

/-- app.py lines 288-414: one POST turn of the `/webhook` route, given the
decoded sender id (`From` with the `whatsapp:` prefix removed; `""` models
a missing sender) and the raw `Body` field.  Returns the updated store and
the trace of side effects in source order. -/
def webhook (db : Db) (from_number body0 : String) : Db × List Effect :=
  if from_number = "" then (db, []) else
  let body_raw := pyStrip body0
  let lang := langOf body_raw
  let db1 := upsert_user db from_number lang
  let state := (get_user_state db1 from_number).1
  let body := pyLower body_raw
  if isMenuKeyword body then
    (set_user_state db1 from_number none none,
     [.setState from_number none none,
      .reply from_number (welcomeFor lang)])
  else if isSupportKeyword body then
    (set_user_state db1 from_number (some "support_open") none,
     [.setState from_number (some "support_open") none,
      .reply from_number (if lang = "ar" then SUPPORT_PROMPT_AR else SUPPORT_PROMPT_EN)])
  else if state = some "support_open" then
    (set_user_state (save_lead db1 from_number body_raw "support") from_number none none,
     [.recordLead from_number body_raw "support",
      .notify (supportNotifyMsg from_number body_raw),
      .setState from_number none none,
      .reply from_number (if lang = "ar" then SUPPORT_THANKS_AR else SUPPORT_THANKS_EN)])
  else if isTrialKeyword body then
    (set_user_state db1 from_number (some "awaiting_trial_contact") none,
     [.setState from_number (some "awaiting_trial_contact") none,
      .reply from_number (if lang = "ar" then TRIAL_AR else TRIAL_EN)])
  else if state = some "awaiting_trial_contact" then
    if emailLike body_raw || phoneLike body_raw then
      (set_user_state (save_lead db1 from_number body_raw "trial") from_number none none,
       [.recordLead from_number body_raw "trial",
        .notify (trialNotifyMsg from_number body_raw),
        .setState from_number none none,
        .reply from_number TRIAL_CONFIRM])
    else
      (db1, [.reply from_number (if lang = "ar" then TRIAL_AR else TRIAL_EN)])
  else if isOffersKeyword body then
    -- the reply is sent BEFORE the state write (app.py lines 355-356)
    (set_user_state db1 from_number (some "awaiting_package_choice") none,
     [.reply from_number (offersMsg lang),
      .setState from_number (some "awaiting_package_choice") none])
  else if state = some "awaiting_package_choice" then
    match chosenPlan body with
    | some chosen =>
      (save_order (set_user_state db1 from_number none (some chosen)) from_number chosen "initiated",
       [.setState from_number none (some chosen),
        .recordOrder from_number chosen "initiated",
        .notify (orderNotifyMsg from_number chosen),
        .reply from_number (payReply lang chosen)])
    | none =>
      (db1, [.reply from_number (if lang = "ar" then CHOOSE_PLAN_AR else CHOOSE_PLAN_EN)])
  else if pyStartsWith body "buy " then
    match buyNormalized (pyStrip (removeBuyStr body)) with
    | some normalized =>
      (save_order db1 from_number normalized "initiated",
       [.recordOrder from_number normalized "initiated",
        .notify (orderNotifyMsg from_number normalized),
        .reply from_number (payReply lang normalized)])
    | none =>
      (db1, [.reply from_number (if lang = "ar" then CHOOSE_PLAN_AR else CHOOSE_PLAN_EN)])
  else
    (db1, [.reply from_number (if lang = "ar" then FALLBACK_AR else FALLBACK_EN)])

-- ===================== concrete stores for instances =====================

/-- The empty store (fresh database). -/
def db0 : Db := ⟨fun _ => none, [], []⟩

/-- A store holding one sender `"+1"` with a given conversation state and
pending plan. -/
def dbWith (st pp : Option String) : Db :=
  ⟨fun x => if x = "+1" then some ⟨"en", st, pp⟩ else none, [], []⟩

-- ===================== store lemmas =====================

theorem get_upsert_state (db : Db) (wa lang : String) :
    (get_user_state (upsert_user db wa lang) wa).1 = (get_user_state db wa).1 := by
  unfold get_user_state upsert_user
  cases h : db.users wa <;> simp [h]

theorem get_upsert_pending (db : Db) (wa lang : String) :
    (get_user_state (upsert_user db wa lang) wa).2.1 = (get_user_state db wa).2.1 := by
  unfold get_user_state upsert_user
  cases h : db.users wa <;> simp [h]

theorem users_upsert_isSome (db : Db) (wa lang : String) :
    ((upsert_user db wa lang).users wa).isSome = true := by
  unfold upsert_user
  cases h : db.users wa <;> simp [h]

theorem get_set_state (db : Db) (wa : String) (st pp : Option String)
    (h : (db.users wa).isSome = true) :
    (get_user_state (set_user_state db wa st pp) wa).1 = st := by
  unfold get_user_state set_user_state
  cases hu : db.users wa
  · rw [hu] at h; simp at h
  · simp [hu]

theorem get_set_pending (db : Db) (wa : String) (st pp : Option String)
    (h : (db.users wa).isSome = true) :
    (get_user_state (set_user_state db wa st pp) wa).2.1 = pp := by
  unfold get_user_state set_user_state
  cases hu : db.users wa
  · rw [hu] at h; simp at h
  · simp [hu]

theorem upsert_leads (db : Db) (wa lang : String) :
    (upsert_user db wa lang).leads = db.leads := by
  unfold upsert_user
  cases h : db.users wa <;> simp [h]

theorem upsert_orders (db : Db) (wa lang : String) :
    (upsert_user db wa lang).orders = db.orders := by
  unfold upsert_user
  cases h : db.users wa <;> simp [h]

theorem set_state_leads (db : Db) (wa : String) (st pp : Option String) :
    (set_user_state db wa st pp).leads = db.leads := rfl

theorem set_state_orders (db : Db) (wa : String) (st pp : Option String) :
    (set_user_state db wa st pp).orders = db.orders := rfl

theorem save_lead_users (db : Db) (wa c s : String) :
    (save_lead db wa c s).users = db.users := rfl

theorem save_lead_leads (db : Db) (wa c s : String) :
    (save_lead db wa c s).leads = db.leads ++ [⟨wa, c, s⟩] := rfl

theorem save_lead_orders (db : Db) (wa c s : String) :
    (save_lead db wa c s).orders = db.orders := rfl

theorem save_order_users (db : Db) (wa p s : String) :
    (save_order db wa p s).users = db.users := rfl

theorem save_order_leads (db : Db) (wa p s : String) :
    (save_order db wa p s).leads = db.leads := rfl

theorem save_order_orders (db : Db) (wa p s : String) :
    (save_order db wa p s).orders = db.orders ++ [⟨wa, p, s⟩] := rfl

theorem get_save_order (db : Db) (wa wa2 p s : String) :
    get_user_state (save_order db wa2 p s) wa = get_user_state db wa := rfl

theorem get_save_lead (db : Db) (wa wa2 c s : String) :
    get_user_state (save_lead db wa2 c s) wa = get_user_state db wa := rfl

-- ===================== catalog case lemmas =====================

theorem chosenPlan_cases {body c : String} (h : chosenPlan body = some c) :
    c = "premium" ∨ c = "executive" ∨ c = "casual" ∨ c = "kids" := by
  unfold chosenPlan at h
  repeat' split at h
  all_goals simp_all

theorem buyExactAlias_cases {tok c : String} (h : buyExactAlias tok = some c) :
    c = "premium" ∨ c = "executive" ∨ c = "casual" ∨ c = "kids" := by
  unfold buyExactAlias at h
  repeat' split at h
  all_goals simp_all

theorem inPayTable_cases {tok : String} (h : inPayTable tok = true) :
    tok = "premium" ∨ tok = "executive" ∨ tok = "casual" ∨ tok = "kids" := by
  unfold inPayTable PLAN_PAY_URL at h
  simp only [List.find?] at h
  repeat' split at h
  all_goals simp_all

theorem buyNormalized_cases {tok c : String} (h : buyNormalized tok = some c) :
    c = "premium" ∨ c = "executive" ∨ c = "casual" ∨ c = "kids" := by
  unfold buyNormalized at h
  cases he : buyExactAlias tok with
  | some p =>
    rw [he] at h
    simp at h
    subst h
    exact buyExactAlias_cases he
  | none =>
    rw [he] at h
    simp at h
    obtain ⟨hp, hc⟩ := h
    subst hc
    exact inPayTable_cases hp

-- ===================== claim C3 =====================

/-- C3: for every sender and every prior conversation state, an inbound
message whose lower-cased trimmed text is a menu keyword resets
`conversation_state` to NONE and clears `pending_plan`; the trace shows the
branch short-circuits every state-dependent branch (only the state reset
and the welcome reply happen). -/
theorem c3_menu_reset (db : Db) (from_number body0 : String)
    (hf : from_number ≠ "")
    (hm : isMenuKeyword (pyLower (pyStrip body0)) = true) :
    (get_user_state (webhook db from_number body0).1 from_number).1 = none ∧
    (get_user_state (webhook db from_number body0).1 from_number).2.1 = none ∧
    (webhook db from_number body0).2 =
      [Effect.setState from_number none none,
       Effect.reply from_number (welcomeFor (langOf (pyStrip body0)))] := by
  have hwh : webhook db from_number body0 =
      (set_user_state (upsert_user db from_number (langOf (pyStrip body0))) from_number none none,
       [Effect.setState from_number none none,
        Effect.reply from_number (welcomeFor (langOf (pyStrip body0)))]) := by
    unfold webhook
    rw [if_neg hf]
    simp [hm]
  rw [hwh]
  exact ⟨get_set_state _ from_number none none (users_upsert_isSome db from_number _),
         get_set_pending _ from_number none none (users_upsert_isSome db from_number _),
         rfl⟩

/-- C3 witness: from state `support_open` with a pending plan, the message
`"MENU"` resets the state and pending plan. -/
theorem c3_menu_reset_witness :
    (("+1" : String) ≠ "" ∧ isMenuKeyword (pyLower (pyStrip "MENU")) = true) ∧
    ((get_user_state (webhook (dbWith (some "support_open") (some "premium")) "+1" "MENU").1 "+1").1 = none ∧
     (get_user_state (webhook (dbWith (some "support_open") (some "premium")) "+1" "MENU").1 "+1").2.1 = none ∧
     (webhook (dbWith (some "support_open") (some "premium")) "+1" "MENU").2 =
       [Effect.setState "+1" none none,
        Effect.reply "+1" (welcomeFor (langOf (pyStrip "MENU")))]) :=
  ⟨⟨by decide, by decide⟩,
   c3_menu_reset (dbWith (some "support_open") (some "premium")) "+1" "MENU" (by decide) (by decide)⟩

-- ===================== claim C4 =====================

/-- Outcome of a `SUPPORT_OPEN` turn: exactly one lead appended holding the
entire (stripped) inbound text with source `support`, the notifier fired,
state back to NONE, thanks reply — and those are all the effects. -/
def SupportCaptureOutcome (db : Db) (from_number body0 : String) : Prop :=
  (webhook db from_number body0).1.leads
    = db.leads ++ [⟨from_number, pyStrip body0, "support"⟩] ∧
  (get_user_state (webhook db from_number body0).1 from_number).1 = none ∧
  (webhook db from_number body0).2 =
    [Effect.recordLead from_number (pyStrip body0) "support",
     Effect.notify (supportNotifyMsg from_number (pyStrip body0)),
     Effect.setState from_number none none,
     Effect.reply from_number
       (if langOf (pyStrip body0) = "ar" then SUPPORT_THANKS_AR else SUPPORT_THANKS_EN)]

/-- C4: from state `support_open`, any text matching neither the menu rule
nor the support-entry rule is captured unconditionally (no pattern test):
one lead with the whole text and source=support, one notifier call, state
to NONE, thanks reply. -/
theorem c4_support_capture (db : Db) (from_number body0 : String)
    (hf : from_number ≠ "")
    (hm : isMenuKeyword (pyLower (pyStrip body0)) = false)
    (hs : isSupportKeyword (pyLower (pyStrip body0)) = false)
    (hstate : (get_user_state db from_number).1 = some "support_open") :
    SupportCaptureOutcome db from_number body0 := by
  have hwh : webhook db from_number body0 =
      (set_user_state
         (save_lead (upsert_user db from_number (langOf (pyStrip body0))) from_number (pyStrip body0) "support")
         from_number none none,
       [Effect.recordLead from_number (pyStrip body0) "support",
        Effect.notify (supportNotifyMsg from_number (pyStrip body0)),
        Effect.setState from_number none none,
        Effect.reply from_number
          (if langOf (pyStrip body0) = "ar" then SUPPORT_THANKS_AR else SUPPORT_THANKS_EN)]) := by
    unfold webhook
    rw [if_neg hf]
    simp [hm, hs, get_upsert_state, hstate]
  unfold SupportCaptureOutcome
  rw [hwh]
  refine ⟨?_, ?_, rfl⟩
  · rw [set_state_leads, save_lead_leads, upsert_leads]
  · have h1 : ((save_lead (upsert_user db from_number (langOf (pyStrip body0))) from_number
        (pyStrip body0) "support").users from_number).isSome = true := by
      rw [save_lead_users]
      exact users_upsert_isSome _ _ _
    exact get_set_state _ _ _ _ h1

/-- C4 witness: the free-text issue `"my box crashed"` from `support_open`. -/
theorem c4_support_capture_witness :
    (("+1" : String) ≠ "" ∧
     isMenuKeyword (pyLower (pyStrip "my box crashed")) = false ∧
     isSupportKeyword (pyLower (pyStrip "my box crashed")) = false ∧
     (get_user_state (dbWith (some "support_open") none) "+1").1 = some "support_open") ∧
    SupportCaptureOutcome (dbWith (some "support_open") none) "+1" "my box crashed" :=
  ⟨⟨by decide, by decide, by decide, by decide⟩,
   c4_support_capture (dbWith (some "support_open") none) "+1" "my box crashed"
     (by decide) (by decide) (by decide) (by decide)⟩

-- ===================== claim C5 =====================

/-- Outcome of an `awaiting_trial_contact` turn: if the raw text is
email-like or phone-like, one trial lead, one notifier call, state to NONE
and the fixed confirmation; otherwise no store change beyond the language
upsert, state still `awaiting_trial_contact`, and the trial prompt again. -/
def TrialContactOutcome (db : Db) (from_number body0 : String) : Prop :=
  ((emailLike (pyStrip body0) || phoneLike (pyStrip body0)) = true →
    (webhook db from_number body0).1.leads
      = db.leads ++ [⟨from_number, pyStrip body0, "trial"⟩] ∧
    (get_user_state (webhook db from_number body0).1 from_number).1 = none ∧
    (webhook db from_number body0).2 =
      [Effect.recordLead from_number (pyStrip body0) "trial",
       Effect.notify (trialNotifyMsg from_number (pyStrip body0)),
       Effect.setState from_number none none,
       Effect.reply from_number TRIAL_CONFIRM]) ∧
  ((emailLike (pyStrip body0) || phoneLike (pyStrip body0)) = false →
    (get_user_state (webhook db from_number body0).1 from_number).1
      = some "awaiting_trial_contact" ∧
    (webhook db from_number body0).1.leads = db.leads ∧
    (webhook db from_number body0).2 =
      [Effect.reply from_number
        (if langOf (pyStrip body0) = "ar" then TRIAL_AR else TRIAL_EN)])

/-- C5: from `awaiting_trial_contact` (text matching no earlier rule), an
email-like (`@` then at least one character then `.`) or phone-like (7+
consecutive digits) raw text records a trial lead, notifies, moves to NONE
with the fixed confirmation; otherwise the state stays and the trial
prompt is re-sent instead of the fallback. -/
theorem c5_trial_contact (db : Db) (from_number body0 : String)
    (hf : from_number ≠ "")
    (hm : isMenuKeyword (pyLower (pyStrip body0)) = false)
    (hs : isSupportKeyword (pyLower (pyStrip body0)) = false)
    (ht : isTrialKeyword (pyLower (pyStrip body0)) = false)
    (hstate : (get_user_state db from_number).1 = some "awaiting_trial_contact") :
    TrialContactOutcome db from_number body0 := by
  constructor
  · intro hyes
    have hwh : webhook db from_number body0 =
        (set_user_state
           (save_lead (upsert_user db from_number (langOf (pyStrip body0))) from_number (pyStrip body0) "trial")
           from_number none none,
         [Effect.recordLead from_number (pyStrip body0) "trial",
          Effect.notify (trialNotifyMsg from_number (pyStrip body0)),
          Effect.setState from_number none none,
          Effect.reply from_number TRIAL_CONFIRM]) := by
      unfold webhook
      rw [if_neg hf]
      simp [hm, hs, ht, get_upsert_state, hstate, hyes]
    rw [hwh]
    refine ⟨?_, ?_, rfl⟩
    · rw [set_state_leads, save_lead_leads, upsert_leads]
    · have h1 : ((save_lead (upsert_user db from_number (langOf (pyStrip body0))) from_number
          (pyStrip body0) "trial").users from_number).isSome = true := by
        rw [save_lead_users]
        exact users_upsert_isSome _ _ _
      exact get_set_state _ _ _ _ h1
  · intro hno
    have hwh : webhook db from_number body0 =
        (upsert_user db from_number (langOf (pyStrip body0)),
         [Effect.reply from_number
           (if langOf (pyStrip body0) = "ar" then TRIAL_AR else TRIAL_EN)]) := by
      unfold webhook
      rw [if_neg hf]
      simp [hm, hs, ht, get_upsert_state, hstate, hno]
    rw [hwh]
    refine ⟨?_, upsert_leads _ _ _, rfl⟩
    rw [get_upsert_state]
    exact hstate

/-- C5 witness: the text `"user@email.com"` from `awaiting_trial_contact`. -/
theorem c5_trial_contact_witness :
    (("+1" : String) ≠ "" ∧
     isMenuKeyword (pyLower (pyStrip "user@email.com")) = false ∧
     isSupportKeyword (pyLower (pyStrip "user@email.com")) = false ∧
     isTrialKeyword (pyLower (pyStrip "user@email.com")) = false ∧
     (get_user_state (dbWith (some "awaiting_trial_contact") none) "+1").1
       = some "awaiting_trial_contact") ∧
    TrialContactOutcome (dbWith (some "awaiting_trial_contact") none) "+1" "user@email.com" :=
  ⟨⟨by decide, by decide, by decide, by decide, by decide⟩,
   c5_trial_contact (dbWith (some "awaiting_trial_contact") none) "+1" "user@email.com"
     (by decide) (by decide) (by decide) (by decide) (by decide)⟩

-- ===================== claim C6 =====================

/-- Outcome of an `awaiting_package_choice` turn: a resolved plan sets
`pending_plan`, moves to NONE, records an initiated order, notifies and
replies with description plus pay link; an unresolved text keeps the state
and re-prompts. -/
def PackageChoiceOutcome (db : Db) (from_number body0 : String) : Prop :=
  (∀ c, chosenPlan (pyLower (pyStrip body0)) = some c →
    (get_user_state (webhook db from_number body0).1 from_number).1 = none ∧
    (get_user_state (webhook db from_number body0).1 from_number).2.1 = some c ∧
    (webhook db from_number body0).1.orders
      = db.orders ++ [⟨from_number, c, "initiated"⟩] ∧
    (webhook db from_number body0).2 =
      [Effect.setState from_number none (some c),
       Effect.recordOrder from_number c "initiated",
       Effect.notify (orderNotifyMsg from_number c),
       Effect.reply from_number (payReply (langOf (pyStrip body0)) c)]) ∧
  (chosenPlan (pyLower (pyStrip body0)) = none →
    (get_user_state (webhook db from_number body0).1 from_number).1
      = some "awaiting_package_choice" ∧
    (webhook db from_number body0).1.orders = db.orders ∧
    (webhook db from_number body0).2 =
      [Effect.reply from_number
        (if langOf (pyStrip body0) = "ar" then CHOOSE_PLAN_AR else CHOOSE_PLAN_EN)])

/-- C6: from `awaiting_package_choice` (text matching no earlier rule), the
text is resolved through `chosenPlan` — per plan, exact alias match or
alias-substring containment, plans in the fixed order premium, executive,
casual, kids, first hit wins; a hit sets `pending_plan`, moves to NONE,
records an initiated order, notifies and replies with description plus pay
link; a miss keeps the state and re-sends the choose-a-package prompt. -/
theorem c6_package_choice (db : Db) (from_number body0 : String)
    (hf : from_number ≠ "")
    (hm : isMenuKeyword (pyLower (pyStrip body0)) = false)
    (hs : isSupportKeyword (pyLower (pyStrip body0)) = false)
    (ht : isTrialKeyword (pyLower (pyStrip body0)) = false)
    (ho : isOffersKeyword (pyLower (pyStrip body0)) = false)
    (hstate : (get_user_state db from_number).1 = some "awaiting_package_choice") :
    PackageChoiceOutcome db from_number body0 := by
  constructor
  · intro c hc
    have hwh : webhook db from_number body0 =
        (save_order
           (set_user_state (upsert_user db from_number (langOf (pyStrip body0))) from_number none (some c))
           from_number c "initiated",
         [Effect.setState from_number none (some c),
          Effect.recordOrder from_number c "initiated",
          Effect.notify (orderNotifyMsg from_number c),
          Effect.reply from_number (payReply (langOf (pyStrip body0)) c)]) := by
      unfold webhook
      rw [if_neg hf]
      simp [hm, hs, ht, ho, get_upsert_state, hstate, hc]
    rw [hwh]
    refine ⟨?_, ?_, ?_, rfl⟩
    · rw [get_save_order]
      exact get_set_state _ _ _ _ (users_upsert_isSome db from_number _)
    · rw [get_save_order]
      exact get_set_pending _ _ _ _ (users_upsert_isSome db from_number _)
    · rw [save_order_orders, set_state_orders, upsert_orders]
  · intro hc
    have hwh : webhook db from_number body0 =
        (upsert_user db from_number (langOf (pyStrip body0)),
         [Effect.reply from_number
           (if langOf (pyStrip body0) = "ar" then CHOOSE_PLAN_AR else CHOOSE_PLAN_EN)]) := by
      unfold webhook
      rw [if_neg hf]
      simp [hm, hs, ht, ho, get_upsert_state, hstate, hc]
    rw [hwh]
    refine ⟨?_, upsert_orders _ _ _, rfl⟩
    rw [get_upsert_state]
    exact hstate

/-- C6 witness: the text `"i want kids please"` (substring containment, not
an exact alias) from `awaiting_package_choice`. -/
theorem c6_package_choice_witness :
    (("+1" : String) ≠ "" ∧
     isMenuKeyword (pyLower (pyStrip "i want kids please")) = false ∧
     isSupportKeyword (pyLower (pyStrip "i want kids please")) = false ∧
     isTrialKeyword (pyLower (pyStrip "i want kids please")) = false ∧
     isOffersKeyword (pyLower (pyStrip "i want kids please")) = false ∧
     (get_user_state (dbWith (some "awaiting_package_choice") none) "+1").1
       = some "awaiting_package_choice") ∧
    PackageChoiceOutcome (dbWith (some "awaiting_package_choice") none) "+1" "i want kids please" :=
  ⟨⟨by decide, by decide, by decide, by decide, by decide, by decide⟩,
   c6_package_choice (dbWith (some "awaiting_package_choice") none) "+1" "i want kids please"
     (by decide) (by decide) (by decide) (by decide) (by decide) (by decide)⟩

-- ===================== claim C9 =====================

/-- Outcome of an unrecognized turn from state NONE: state and pending plan
unchanged, no lead and no order written, only the fallback reply. -/
def FallbackFrameOutcome (db : Db) (from_number body0 : String) : Prop :=
  (get_user_state (webhook db from_number body0).1 from_number).1 = none ∧
  (get_user_state (webhook db from_number body0).1 from_number).2.1
    = (get_user_state db from_number).2.1 ∧
  (webhook db from_number body0).1.leads = db.leads ∧
  (webhook db from_number body0).1.orders = db.orders ∧
  (webhook db from_number body0).2 =
    [Effect.reply from_number
      (if langOf (pyStrip body0) = "ar" then FALLBACK_AR else FALLBACK_EN)]

/-- C9: from state NONE, a text matching none of the keyword rules (menu,
support, trial, offers, buy) leaves `conversation_state` and `pending_plan`
unchanged and writes no lead and no order; only the fallback reply is
sent. -/
theorem c9_fallback_frame (db : Db) (from_number body0 : String)
    (hf : from_number ≠ "")
    (hstate : (get_user_state db from_number).1 = none)
    (hm : isMenuKeyword (pyLower (pyStrip body0)) = false)
    (hs : isSupportKeyword (pyLower (pyStrip body0)) = false)
    (ht : isTrialKeyword (pyLower (pyStrip body0)) = false)
    (ho : isOffersKeyword (pyLower (pyStrip body0)) = false)
    (hb : pyStartsWith (pyLower (pyStrip body0)) "buy " = false) :
    FallbackFrameOutcome db from_number body0 := by
  have hwh : webhook db from_number body0 =
      (upsert_user db from_number (langOf (pyStrip body0)),
       [Effect.reply from_number
         (if langOf (pyStrip body0) = "ar" then FALLBACK_AR else FALLBACK_EN)]) := by
    unfold webhook
    rw [if_neg hf]
    simp [hm, hs, ht, ho, hb, get_upsert_state, hstate]
  unfold FallbackFrameOutcome
  rw [hwh]
  refine ⟨?_, get_upsert_pending _ _ _, upsert_leads _ _ _, upsert_orders _ _ _, rfl⟩
  rw [get_upsert_state]
  exact hstate

/-- C9 witness: the unrecognized text `"weather today?"` from state NONE
(with a stale pending plan, which must survive untouched). -/
theorem c9_fallback_frame_witness :
    (("+1" : String) ≠ "" ∧
     (get_user_state (dbWith none (some "casual")) "+1").1 = none ∧
     isMenuKeyword (pyLower (pyStrip "weather today?")) = false ∧
     isSupportKeyword (pyLower (pyStrip "weather today?")) = false ∧
     isTrialKeyword (pyLower (pyStrip "weather today?")) = false ∧
     isOffersKeyword (pyLower (pyStrip "weather today?")) = false ∧
     pyStartsWith (pyLower (pyStrip "weather today?")) "buy " = false) ∧
    FallbackFrameOutcome (dbWith none (some "casual")) "+1" "weather today?" :=
  ⟨⟨by decide, by decide, by decide, by decide, by decide, by decide, by decide⟩,
   c9_fallback_frame (dbWith none (some "casual")) "+1" "weather today?"
     (by decide) (by decide) (by decide) (by decide) (by decide) (by decide) (by decide)⟩

-- ===================== claim C8 =====================

/-- C8: for a fresh sender, the conversation "start", then "1", then
"premium" ends with conversation_state NONE, exactly one order record
(plan premium, status initiated), and zero lead records. -/
theorem c8_roundtrip :
    (get_user_state
       (webhook (webhook (webhook db0 "+9715" "start").1 "+9715" "1").1 "+9715" "premium").1
       "+9715").1 = none ∧
    (webhook (webhook (webhook db0 "+9715" "start").1 "+9715" "1").1 "+9715" "premium").1.orders
      = [⟨"+9715", "premium", "initiated"⟩] ∧
    (webhook (webhook (webhook db0 "+9715" "start").1 "+9715" "1").1 "+9715" "premium").1.leads
      = [] := by decide

-- ===================== claim C10 =====================

/-- Outcome of a direct-buy turn whose stripped token resolves to plan `n`:
no `set_user_state` call appears in the trace, the stored conversation
state and pending plan after the turn equal the values loaded at its
start, the order is recorded, and the reply is sent. -/
def DirectBuyFrameOutcome (db : Db) (from_number body0 n : String) : Prop :=
  ((webhook db from_number body0).2.filter isSetStateE) = [] ∧
  (get_user_state (webhook db from_number body0).1 from_number).1
    = (get_user_state db from_number).1 ∧
  (get_user_state (webhook db from_number body0).1 from_number).2.1
    = (get_user_state db from_number).2.1 ∧
  (webhook db from_number body0).1.orders
    = db.orders ++ [⟨from_number, n, "initiated"⟩] ∧
  (webhook db from_number body0).2 =
    [Effect.recordOrder from_number n "initiated",
     Effect.notify (orderNotifyMsg from_number n),
     Effect.reply from_number (payReply (langOf (pyStrip body0)) n)]

/-- C10 (implicit): when the direct-buy branch fires and the stripped token
resolves to a plan, the handler records the order and replies but never
calls `set_user_state`, so conversation_state and pending_plan after the
turn are exactly the values loaded at its start. -/
theorem c10_direct_buy_frame (db : Db) (from_number body0 n : String)
    (hf : from_number ≠ "")
    (hm : isMenuKeyword (pyLower (pyStrip body0)) = false)
    (hs : isSupportKeyword (pyLower (pyStrip body0)) = false)
    (ht : isTrialKeyword (pyLower (pyStrip body0)) = false)
    (ho : isOffersKeyword (pyLower (pyStrip body0)) = false)
    (h1 : (get_user_state db from_number).1 ≠ some "support_open")
    (h2 : (get_user_state db from_number).1 ≠ some "awaiting_trial_contact")
    (h3 : (get_user_state db from_number).1 ≠ some "awaiting_package_choice")
    (hbuy : pyStartsWith (pyLower (pyStrip body0)) "buy " = true)
    (hn : buyNormalized (pyStrip (removeBuyStr (pyLower (pyStrip body0)))) = some n) :
    DirectBuyFrameOutcome db from_number body0 n := by
  have hwh : webhook db from_number body0 =
      (save_order (upsert_user db from_number (langOf (pyStrip body0))) from_number n "initiated",
       [Effect.recordOrder from_number n "initiated",
        Effect.notify (orderNotifyMsg from_number n),
        Effect.reply from_number (payReply (langOf (pyStrip body0)) n)]) := by
    unfold webhook
    rw [if_neg hf]
    simp [hm, hs, ht, ho, get_upsert_state, h1, h2, h3, hbuy, hn]
  unfold DirectBuyFrameOutcome
  rw [hwh]
  refine ⟨rfl, ?_, ?_, ?_, rfl⟩
  · rw [get_save_order]
    exact get_upsert_state _ _ _
  · rw [get_save_order]
    exact get_upsert_pending _ _ _
  · rw [save_order_orders, upsert_orders]

/-- C10 witness: `"buy kids"` from a fresh sender in state NONE. -/
theorem c10_direct_buy_frame_witness :
    (("+1" : String) ≠ "" ∧
     isMenuKeyword (pyLower (pyStrip "buy kids")) = false ∧
     isSupportKeyword (pyLower (pyStrip "buy kids")) = false ∧
     isTrialKeyword (pyLower (pyStrip "buy kids")) = false ∧
     isOffersKeyword (pyLower (pyStrip "buy kids")) = false ∧
     (get_user_state db0 "+1").1 ≠ some "support_open" ∧
     (get_user_state db0 "+1").1 ≠ some "awaiting_trial_contact" ∧
     (get_user_state db0 "+1").1 ≠ some "awaiting_package_choice" ∧
     pyStartsWith (pyLower (pyStrip "buy kids")) "buy " = true ∧
     buyNormalized (pyStrip (removeBuyStr (pyLower (pyStrip "buy kids")))) = some "kids") ∧
    DirectBuyFrameOutcome db0 "+1" "buy kids" "kids" :=
  ⟨⟨by decide, by decide, by decide, by decide, by decide, by decide, by decide, by decide,
    by decide, by decide⟩,
   c10_direct_buy_frame db0 "+1" "buy kids" "kids" (by decide) (by decide) (by decide)
     (by decide) (by decide) (by decide) (by decide) (by decide) (by decide) (by decide)⟩

-- ===================== claim C7 =====================

/-- C7 counterexample: for the inbound text `"buy buy kids"`, stripping
only the leading `"buy "` prefix (the claim's algorithm) leaves
`"buy kids"`, which resolves to no plan — so per the claim the turn would
only re-prompt and record nothing.  The code instead removes EVERY
occurrence of `"buy "` (Python `str.replace`), obtaining `"kids"`, and
records a kids order. -/
theorem c7_counterexample :
    buyNormalized (leadingBuyStripped (pyLower (pyStrip "buy buy kids"))) = none ∧
    pyStrip (removeBuyStr (pyLower (pyStrip "buy buy kids"))) = "kids" ∧
    (webhook db0 "+1" "buy buy kids").1.orders = [⟨"+1", "kids", "initiated"⟩] := by
  decide

/-- Outcome of a direct-buy turn under the code's actual token derivation:
every `"buy "` occurrence removed and the result trimmed, then exact alias
or catalog-id resolution; a hit records an initiated order, notifies and
replies with description plus pay link; a miss only re-prompts; the stored
state and pending plan and the leads table are untouched either way. -/
def BuyBranchOutcome (db : Db) (from_number body0 : String) : Prop :=
  (∀ n, buyNormalized (pyStrip (removeBuyStr (pyLower (pyStrip body0)))) = some n →
    (webhook db from_number body0).1.orders
      = db.orders ++ [⟨from_number, n, "initiated"⟩] ∧
    (webhook db from_number body0).2 =
      [Effect.recordOrder from_number n "initiated",
       Effect.notify (orderNotifyMsg from_number n),
       Effect.reply from_number (payReply (langOf (pyStrip body0)) n)]) ∧
  (buyNormalized (pyStrip (removeBuyStr (pyLower (pyStrip body0)))) = none →
    (webhook db from_number body0).1.orders = db.orders ∧
    (webhook db from_number body0).2 =
      [Effect.reply from_number
        (if langOf (pyStrip body0) = "ar" then CHOOSE_PLAN_AR else CHOOSE_PLAN_EN)]) ∧
  (get_user_state (webhook db from_number body0).1 from_number).1
    = (get_user_state db from_number).1 ∧
  (get_user_state (webhook db from_number body0).1 from_number).2.1
    = (get_user_state db from_number).2.1 ∧
  (webhook db from_number body0).1.leads = db.leads

/-- C7 (amended): for a text whose lower-cased form starts with `"buy "`
(matching no earlier rule), the handler removes EVERY occurrence of the
substring `"buy "` (not only the leading one), trims the result, and
resolves it by exact alias match only or direct catalog-id match; on a
match it records an initiated order, notifies and replies with description
plus pay link, from any non-flow state including NONE; on no match it
replies with the choose-a-package prompt; the state is never written. -/
theorem c7_buy_branch (db : Db) (from_number body0 : String)
    (hf : from_number ≠ "")
    (hm : isMenuKeyword (pyLower (pyStrip body0)) = false)
    (hs : isSupportKeyword (pyLower (pyStrip body0)) = false)
    (ht : isTrialKeyword (pyLower (pyStrip body0)) = false)
    (ho : isOffersKeyword (pyLower (pyStrip body0)) = false)
    (h1 : (get_user_state db from_number).1 ≠ some "support_open")
    (h2 : (get_user_state db from_number).1 ≠ some "awaiting_trial_contact")
    (h3 : (get_user_state db from_number).1 ≠ some "awaiting_package_choice")
    (hbuy : pyStartsWith (pyLower (pyStrip body0)) "buy " = true) :
    BuyBranchOutcome db from_number body0 := by
  refine ⟨?_, ?_, ?_, ?_, ?_⟩
  · intro n hn
    have hwh : webhook db from_number body0 =
        (save_order (upsert_user db from_number (langOf (pyStrip body0))) from_number n "initiated",
         [Effect.recordOrder from_number n "initiated",
          Effect.notify (orderNotifyMsg from_number n),
          Effect.reply from_number (payReply (langOf (pyStrip body0)) n)]) := by
      unfold webhook
      rw [if_neg hf]
      simp [hm, hs, ht, ho, get_upsert_state, h1, h2, h3, hbuy, hn]
    rw [hwh]
    refine ⟨?_, rfl⟩
    rw [save_order_orders, upsert_orders]
  · intro hn
    have hwh : webhook db from_number body0 =
        (upsert_user db from_number (langOf (pyStrip body0)),
         [Effect.reply from_number
           (if langOf (pyStrip body0) = "ar" then CHOOSE_PLAN_AR else CHOOSE_PLAN_EN)]) := by
      unfold webhook
      rw [if_neg hf]
      simp [hm, hs, ht, ho, get_upsert_state, h1, h2, h3, hbuy, hn]
    rw [hwh]
    exact ⟨upsert_orders _ _ _, rfl⟩
  all_goals
    have hwh2 : (webhook db from_number body0).1.users = (upsert_user db from_number (langOf (pyStrip body0))).users ∧
        (webhook db from_number body0).1.leads = (upsert_user db from_number (langOf (pyStrip body0))).leads := by
      unfold webhook
      rw [if_neg hf]
      simp only [hm, hs, ht, ho, get_upsert_state, h1, h2, h3, hbuy]
      cases hn : buyNormalized (pyStrip (removeBuyStr (pyLower (pyStrip body0)))) <;>
        simp [hm, hs, ht, ho, get_upsert_state, h1, h2, h3, hbuy, hn, save_order_users, save_order_leads]
  · unfold get_user_state
    rw [hwh2.1]
    have := get_upsert_state db from_number (langOf (pyStrip body0))
    unfold get_user_state at this
    exact this
  · unfold get_user_state
    rw [hwh2.1]
    have := get_upsert_pending db from_number (langOf (pyStrip body0))
    unfold get_user_state at this
    exact this
  · rw [hwh2.2, upsert_leads]

/-- C7 witness: `"buy executive"` from state NONE. -/
theorem c7_buy_branch_witness :
    (("+1" : String) ≠ "" ∧
     isMenuKeyword (pyLower (pyStrip "buy executive")) = false ∧
     isSupportKeyword (pyLower (pyStrip "buy executive")) = false ∧
     isTrialKeyword (pyLower (pyStrip "buy executive")) = false ∧
     isOffersKeyword (pyLower (pyStrip "buy executive")) = false ∧
     (get_user_state (dbWith none none) "+1").1 ≠ some "support_open" ∧
     (get_user_state (dbWith none none) "+1").1 ≠ some "awaiting_trial_contact" ∧
     (get_user_state (dbWith none none) "+1").1 ≠ some "awaiting_package_choice" ∧
     pyStartsWith (pyLower (pyStrip "buy executive")) "buy " = true) ∧
    BuyBranchOutcome (dbWith none none) "+1" "buy executive" :=
  ⟨⟨by decide, by decide, by decide, by decide, by decide, by decide, by decide, by decide,
    by decide⟩,
   c7_buy_branch (dbWith none none) "+1" "buy executive" (by decide) (by decide) (by decide)
     (by decide) (by decide) (by decide) (by decide) (by decide) (by decide)⟩

-- ===================== claim C2 =====================

/-- C2 counterexample: on the offers turn (text `"1"` from state NONE) the
trace is `[reply, setState]` — the reply is sent BEFORE the state-store
write (app.py lines 355-356) — so the claimed per-turn order
recorder → notifier → state write → reply fails. -/
theorem c2_counterexample : ¬ SpecEffectOrder ((webhook db0 "+1" "1").2) := by
  unfold SpecEffectOrder
  decide

/-- C2 (amended): per turn with a sender, the handler performs at most one
recorder call, at most one notifier call, at most one state-store write
and exactly one outbound reply, and the recorder call precedes the
notifier call precedes the reply; the state write, however, is not
uniformly ordered (the offers branch replies before writing state, and
the package-choice branch writes state before the recorder call). -/
theorem c2_effect_shape (db : Db) (from_number body0 : String)
    (hf : from_number ≠ "") :
    CodeEffectOrder (webhook db from_number body0).2 := by
  unfold webhook
  rw [if_neg hf]
  simp only [CodeEffectOrder]
  repeat' split
  all_goals
    simp [List.filter, List.filterMap, isRecE, isNotifyE, isSetStateE,
      isReplyE, rankCore, sortedNat]

/-- C2 witness: a concrete fallback turn satisfies the amended shape. -/
theorem c2_effect_shape_witness :
    ("+1" : String) ≠ "" ∧ CodeEffectOrder (webhook db0 "+1" "whatever").2 :=
  ⟨by decide, c2_effect_shape db0 "+1" "whatever" (by decide)⟩

-- ===================== claim C1 =====================

/-- C1 counterexample: the support-entry turn (text `"3"`, detected
language English) replies with `SUPPORT_PROMPT_EN` alone — the Arabic
rendering of the support prompt does not follow it (the reply contains no
Arabic character at all), and this branch is neither the support-thanks
nor the trial-confirmation exemption. -/
theorem c1_counterexample :
    (webhook db0 "+1" "3").2 =
      [Effect.setState "+1" (some "support_open") none,
       Effect.reply "+1" SUPPORT_PROMPT_EN] ∧
    containsSub SUPPORT_PROMPT_AR SUPPORT_PROMPT_EN = false ∧
    is_arabic SUPPORT_PROMPT_EN = false ∧
    is_arabic SUPPORT_PROMPT_AR = true := by
  decide

/-- The single-language reply messages of the handler, paired as
(English rendering, Arabic rendering) of the same message: support
prompt, support thanks, trial prompt, offers list, choose-a-package
prompt, fallback, and the pay reply of each of the four plans. -/
def monoMsgPairs : List (String × String) :=
  [(SUPPORT_PROMPT_EN, SUPPORT_PROMPT_AR),
   (SUPPORT_THANKS_EN, SUPPORT_THANKS_AR),
   (TRIAL_EN, TRIAL_AR),
   (offersMsg "en", offersMsg "ar"),
   (CHOOSE_PLAN_EN, CHOOSE_PLAN_AR),
   (FALLBACK_EN, FALLBACK_AR),
   (payReply "en" "premium", payReply "ar" "premium"),
   (payReply "en" "executive", payReply "ar" "executive"),
   (payReply "en" "casual", payReply "ar" "casual"),
   (payReply "en" "kids", payReply "ar" "kids")]

/-- `m` is a single-language reply for detected language `lang`: it equals
the `lang`-side rendering of one of the paired messages, does NOT contain
the other language's rendering of that same message as a substring, and —
for English — contains no Arabic-block character at all. -/
def singleLangReplyB (lang m : String) : Bool :=
  (lang != "en" || !(is_arabic m)) &&
  monoMsgPairs.any (fun p =>
    if lang = "ar" then m == p.2 && !(containsSub p.1 m)
    else m == p.1 && !(containsSub p.2 m))

set_option maxRecDepth 8192 in
/-- The four resolvable plan ids have single-language pay replies in both
languages. -/
theorem payReply_single_lang {c : String}
    (h : c = "premium" ∨ c = "executive" ∨ c = "casual" ∨ c = "kids") :
    singleLangReplyB "en" (payReply "en" c) = true ∧
    singleLangReplyB "ar" (payReply "ar" c) = true := by
  rcases h with rfl | rfl | rfl | rfl <;> exact ⟨by decide, by decide⟩

set_option maxRecDepth 8192 in
/-- C1 (amended): only the menu/welcome reply is a bilingual echo
(detected language's banner first, then the other language's), and the
trial-confirmation reply is a fixed pre-composed bilingual block; every
other reply is sent in the detected language only.  For every turn and
either detected language, every reply emitted is the bilingual welcome for
the detected language, the fixed trial confirmation, or the detected
language's lone rendering of its message, without the other language's
rendering of that message following it (and, when English is detected,
with no Arabic character at all). -/
theorem c1_single_language_replies (db : Db) (from_number body0 : String) :
    ∀ m, Effect.reply from_number m ∈ (webhook db from_number body0).2 →
      m = welcomeFor (langOf (pyStrip body0)) ∨ m = TRIAL_CONFIRM ∨
      singleLangReplyB (langOf (pyStrip body0)) m = true := by
  intro m hm
  unfold webhook at hm
  by_cases hf : from_number = ""
  · rw [if_pos hf] at hm
    simp at hm
  · rw [if_neg hf] at hm
    cases har : is_arabic (pyStrip body0) with
    | false =>
      have he : ¬(("en" : String) = "ar") := by decide
      simp only [langOf, har, Bool.false_eq_true, if_false, if_neg he] at hm ⊢
      repeat' split at hm
      all_goals simp at hm
      all_goals subst hm
      all_goals first
        | (left; rfl)
        | (right; left; rfl)
        | (right; right; decide)
        | (right; right; exact (payReply_single_lang (chosenPlan_cases (by assumption))).1)
        | (right; right; exact (payReply_single_lang (buyNormalized_cases (by assumption))).1)
    | true =>
      simp only [langOf, har, eq_self_iff_true, if_true] at hm ⊢
      repeat' split at hm
      all_goals simp at hm
      all_goals subst hm
      all_goals first
        | (left; rfl)
        | (right; left; rfl)
        | (right; right; decide)
        | (right; right; exact (payReply_single_lang (chosenPlan_cases (by assumption))).2)
        | (right; right; exact (payReply_single_lang (buyNormalized_cases (by assumption))).2)

/-- C1 witness: the Arabic support-entry turn (text `"٣"`, detected
language Arabic) — its reply is the lone Arabic support prompt. -/
theorem c1_single_language_replies_witness :
    Effect.reply "+1" SUPPORT_PROMPT_AR ∈ (webhook db0 "+1" "٣").2 ∧
    (SUPPORT_PROMPT_AR = welcomeFor (langOf (pyStrip "٣")) ∨
     SUPPORT_PROMPT_AR = TRIAL_CONFIRM ∨
     singleLangReplyB (langOf (pyStrip "٣")) SUPPORT_PROMPT_AR = true) :=
  ⟨by decide, c1_single_language_replies db0 "+1" "٣" SUPPORT_PROMPT_AR (by decide)⟩

end AECyberTV
